import Mathlib

/-!
Shallow embedding of the scheduler-python job scheduling service.

Source layout:
  src/src/models/job.py        — Job / JobExecution data model, JobStatus, JobType
  src/src/services/executor.py — JobExecutor.execute, _calculate_next_run_time,
                                 _calculate_retry_time
  src/src/services/jobs.py     — JobService.create_job / update_job / pause_job /
                                 resume_job, _validate_job_data, _calculate_next_run_time
  src/src/services/scheduler.py — SchedulerService.schedule_job / remove_job /
                                 _create_trigger / _execute_job

Timestamps are modelled as integers (seconds); runtime durations and the running
average runtime (Python floats) are modelled as rationals, so that the arithmetic
the source performs is represented exactly.  The croniter library and APScheduler's
CronTrigger are external dependencies: they are modelled as function parameters
(cronNext : the croniter get_next computation, cronValid : croniter expression
acceptance, cronTrigValid : CronTrigger.from_crontab acceptance).
-/

namespace SchedulerPy

/-- models/job.py JobStatus enum. -/
inductive JobStatus
  | pending
  | running
  | completed
  | failed
  | paused
  | cancelled
deriving DecidableEq, Repr

/-- models/job.py Job model.  Columns that the claims never mention and that no
modelled operation reads or writes (created_at, the index metadata) are omitted;
all columns touched by executor.py / jobs.py / scheduler.py are present.
`job_type` is kept as its string tag, `job_data` as its serialized string form. -/
structure Job where
  id : Nat
  name : String
  description : String
  job_type : String
  cron_expression : Option String
  interval_seconds : Option Int
  next_run_time : Option Int
  last_run_time : Option Int
  job_data : String
  max_retries : Nat
  retry_count : Nat
  timeout_seconds : Int
  status : JobStatus
  is_active : Bool
  priority : Int
  total_runs : Nat
  successful_runs : Nat
  failed_runs : Nat
  average_runtime : Rat
  created_by : String
  updated_at : Int
deriving DecidableEq, Repr

/-- models/job.py JobExecution model (execution_context and stack_trace omitted;
stack_trace is write-only in the source and never branches). -/
structure JobExecution where
  job_id : Nat
  status : JobStatus
  worker_node : String
  started_at : Int
  completed_at : Option Int
  duration : Option Rat
  result : Option String
  error_message : Option String
deriving DecidableEq, Repr

/-- Python truthiness of an optional string field: `if s:` is false for a missing
value and for the empty string. -/
def truthyStr : Option String → Bool
  | some s => s ≠ ""
  | none => false

/-- Python truthiness of an optional integer field: `if i:` is false for a missing
value and for 0. -/
def truthyInt : Option Int → Bool
  | some i => i ≠ 0
  | none => false

/-- executor.py JobExecutor._calculate_next_run_time and (identically)
jobs.py JobService._calculate_next_run_time: if the cron expression is truthy,
ask croniter for the next occurrence after `now` (a croniter failure, caught by
the source's `except`, is `none`); elif the interval is truthy, `now + interval`;
else `None`.  `cronNext` stands for the external croniter get_next computation. -/
def calculate_next_run_time (cronNext : String → Int → Option Int) (now : Int)
    (cron_expression : Option String) (interval_seconds : Option Int) : Option Int :=
  if truthyStr cron_expression then
    cronNext (cron_expression.getD "") now
  else if truthyInt interval_seconds then
    some (now + interval_seconds.getD 0)
  else
    none

/-- executor.py JobExecutor._calculate_retry_time, the delay part:
`delay_minutes = min(2 ** retry_count, 60)`. -/
def retry_delay_minutes (retry_count : Nat) : Nat :=
  min (2 ^ retry_count) 60

/-- executor.py JobExecutor._calculate_retry_time:
`datetime.now() + timedelta(minutes = min(2 ** job.retry_count, 60))`,
expressed in seconds. -/
def calculate_retry_time (now : Int) (retry_count : Nat) : Int :=
  now + 60 * (retry_delay_minutes retry_count : Int)

/-- Outcome of executor.py _execute_with_timeout as observed by `execute`:
either the handler returned a result string within the deadline, or an
exception surfaced (handler exception or the TimeoutError raised on deadline
expiry).  `duration` is the measured `time.time()` difference. -/
inductive ExecOutcome
  | success (result : String) (duration : Rat)
  | failure (msg : String) (duration : Rat)
deriving DecidableEq, Repr

/-- executor.py JobExecutor.execute, lines 37-124.  `t0` is the `datetime.now`
at entry (execution.started_at) and `t1` the `datetime.now` at completion
(execution.completed_at, and the anchor of the next-run / retry computation).

Line 57, `job.retry_count = getattr(job, 'current_retry', 0)`: the Job model
defines no attribute `current_retry` and nothing in the repository ever assigns
one, so getattr always returns the default 0; the line therefore resets
retry_count to 0 unconditionally, and it is modelled that way.

A single JobExecution object is created per call and returned, mirroring the
single `JobExecution(...)` construction in the source. -/
def execute (cronNext : String → Int → Option Int) (t0 t1 : Int) (job : Job)
    (outcome : ExecOutcome) : Job × JobExecution :=
  let execution : JobExecution :=
    { job_id := job.id, status := .running, worker_node := "worker",
      started_at := t0, completed_at := none, duration := none,
      result := none, error_message := none }
  let job : Job := { job with status := .running, retry_count := 0 }
  match outcome with
  | .success r d =>
    let execution := { execution with
      completed_at := some t1, duration := some d, status := .completed,
      result := some (if r = "" then "Job completed successfully" else r) }
    let job := { job with
      status := .completed,
      last_run_time := some execution.started_at,
      total_runs := job.total_runs + 1,
      successful_runs := job.successful_runs + 1,
      retry_count := 0 }
    let job := { job with
      average_runtime :=
        (job.average_runtime * ((job.total_runs : Rat) - 1) + d) / (job.total_runs : Rat) }
    let job := { job with
      next_run_time :=
        calculate_next_run_time cronNext t1 job.cron_expression job.interval_seconds }
    (job, execution)
  | .failure msg d =>
    let execution := { execution with
      completed_at := some t1, duration := some d, status := .failed,
      error_message := some msg }
    let job := { job with
      status := .failed,
      total_runs := job.total_runs + 1,
      failed_runs := job.failed_runs + 1,
      last_run_time := some execution.started_at }
    if job.retry_count < job.max_retries then
      let job := { job with retry_count := job.retry_count + 1, status := .pending }
      let job := { job with next_run_time := some (calculate_retry_time t1 job.retry_count) }
      (job, execution)
    else
      ({ job with next_run_time := none }, execution)

/-- jobs.py valid JobType tags (models/job.py JobType enum values). -/
def validJobTypes : List String :=
  ["email_notification", "data_processing", "report_generation",
   "cleanup_task", "backup_task", "custom"]

/-- Input dictionary of JobService.create_job.  A missing dictionary key is
`none`; `job_data` is kept in its serialized string form (json.dumps output). -/
structure JobConfig where
  name : Option String := none
  description : Option String := none
  job_type : Option String := none
  cron_expression : Option String := none
  interval_seconds : Option Int := none
  job_data : String := ""
  max_retries : Option Nat := none
  timeout_seconds : Option Int := none
  priority : Option Int := none
  created_by : Option String := none
deriving DecidableEq, Repr

/-- jobs.py JobService._validate_job_data, lines 269-311, with the source's
check order: required name (truthy), at least one truthy recurrence field,
croniter acceptance of a truthy cron expression (`cronValid` models croniter's
constructor), positivity of a truthy interval, and membership of a truthy
job_type in the JobType enum. -/
def validate_job_data (cronValid : String → Bool) (cfg : JobConfig) :
    Except String Unit :=
  if ¬ truthyStr cfg.name then
    .error "Missing required field: name"
  else if ¬ truthyStr cfg.cron_expression ∧ ¬ truthyInt cfg.interval_seconds then
    .error "Either cron_expression or interval_seconds must be provided"
  else if truthyStr cfg.cron_expression ∧ ¬ cronValid (cfg.cron_expression.getD "") then
    .error "Invalid cron expression"
  else if truthyInt cfg.interval_seconds ∧ cfg.interval_seconds.getD 0 ≤ 0 then
    .error "interval_seconds must be a positive integer"
  else if truthyStr cfg.job_type ∧ ¬ validJobTypes.contains (cfg.job_type.getD "") then
    .error "Invalid job_type"
  else
    .ok ()

/-- Persisted jobs plus the scheduler's armed-trigger set (APScheduler job ids).
The store stands for the jobs table, the trigger list for the in-memory
BackgroundScheduler state. -/
structure ServiceState where
  store : List Job
  triggers : List Nat
deriving DecidableEq, Repr

/-- Job.query.get. -/
def lookupJob (st : ServiceState) (jobId : Nat) : Option Job :=
  st.store.find? (fun j => j.id == jobId)

/-- Commit of a mutated job row back to the store. -/
def updateStore (store : List Job) (j : Job) : List Job :=
  store.map (fun x => if x.id == j.id then j else x)

/-- scheduler.py SchedulerService._create_trigger: a truthy cron expression
yields a CronTrigger exactly when APScheduler's `CronTrigger.from_crontab`
accepts it (`cronTrigValid` models that acceptance); otherwise a truthy
interval yields an IntervalTrigger; otherwise no trigger. -/
def create_trigger (cronTrigValid : String → Bool) (job : Job) : Bool :=
  if truthyStr job.cron_expression then
    cronTrigValid (job.cron_expression.getD "")
  else
    truthyInt job.interval_seconds

/-- scheduler.py SchedulerService.schedule_job: any existing trigger for the id
is removed first; if no trigger can be built the method returns (leaving the id
unarmed), else the job is added with its id.  `reschedule_job` is the same
function in the source. -/
def schedule_job (cronTrigValid : String → Bool) (job : Job) (triggers : List Nat) :
    List Nat :=
  let triggers := triggers.erase job.id
  if create_trigger cronTrigValid job then job.id :: triggers else triggers

/-- scheduler.py SchedulerService.remove_job: erase if present, no-op if not. -/
def remove_job (jobId : Nat) (triggers : List Nat) : List Nat :=
  triggers.erase jobId

/-- jobs.py JobService.create_job, lines 27-78.  `persistOk` models whether the
`db.session.commit()` of the new row succeeds; on any failure the except-branch
rolls the session back (state unchanged) and raises InvalidJobConfigurationError
(an `Except.error`).  The `JobType(job_data.get('job_type', 'custom'))`
construction raises ValueError — caught by the same except-branch — when the
key is present with a value outside the enum; validation only checked truthy
values, so a present-but-empty job_type fails here. -/
def create_job (cronValid cronTrigValid : String → Bool)
    (cronNext : String → Int → Option Int) (now : Int) (persistOk : Bool)
    (newId : Nat) (st : ServiceState) (cfg : JobConfig) :
    ServiceState × Except String Job :=
  match validate_job_data cronValid cfg with
  | .error e => (st, .error e)
  | .ok _ =>
    if ¬ validJobTypes.contains (cfg.job_type.getD "custom") then
      (st, .error "Invalid job_type value")
    else
      let job : Job :=
        { id := newId, name := cfg.name.getD "",
          description := cfg.description.getD "",
          job_type := cfg.job_type.getD "custom",
          cron_expression := cfg.cron_expression,
          interval_seconds := cfg.interval_seconds,
          next_run_time :=
            calculate_next_run_time cronNext now cfg.cron_expression cfg.interval_seconds,
          last_run_time := none, job_data := cfg.job_data,
          max_retries := cfg.max_retries.getD 3, retry_count := 0,
          timeout_seconds := cfg.timeout_seconds.getD 3600,
          status := .pending, is_active := true,
          priority := cfg.priority.getD 5,
          total_runs := 0, successful_runs := 0, failed_runs := 0,
          average_runtime := 0, created_by := cfg.created_by.getD "system",
          updated_at := now }
      if ¬ persistOk then
        (st, .error "Failed to create job: database error")
      else
        let st : ServiceState := { st with store := st.store ++ [job] }
        if job.is_active ∧ job.next_run_time.isSome then
          ({ st with triggers := schedule_job cronTrigValid job st.triggers }, .ok job)
        else
          (st, .ok job)

/-- jobs.py JobService.pause_job, lines 217-228. -/
def pause_job (st : ServiceState) (jobId : Nat) : ServiceState × Except String Job :=
  match lookupJob st jobId with
  | none => (st, .error "Job not found")
  | some job =>
    let j : Job := { job with is_active := false, status := .paused }
    ({ store := updateStore st.store j, triggers := remove_job jobId st.triggers }, .ok j)

/-- jobs.py JobService.resume_job, lines 230-245: is_active true, status
pending, next_run_time recomputed from `now` via _calculate_next_run_time, and
the job re-armed via schedule_job. -/
def resume_job (cronNext : String → Int → Option Int)
    (cronTrigValid : String → Bool) (now : Int) (st : ServiceState) (jobId : Nat) :
    ServiceState × Except String Job :=
  match lookupJob st jobId with
  | none => (st, .error "Job not found")
  | some job =>
    let j : Job := { job with
      is_active := true, status := .pending,
      next_run_time :=
        calculate_next_run_time cronNext now job.cron_expression job.interval_seconds }
    ({ store := updateStore st.store j,
       triggers := schedule_job cronTrigValid j st.triggers }, .ok j)

/-- One entry of the update dictionary passed to JobService.update_job.  The
nine named constructors are exactly the keys of `allowed_fields` in
jobs.py lines 161-164 (a dict value for `job_data` arrives in serialized
form, matching the json.dumps branch of the source); `other key` stands for a
dictionary entry whose key is any other string. -/
inductive Upd
  | name (v : String)
  | description (v : String)
  | cron_expression (v : Option String)
  | interval_seconds (v : Option Int)
  | job_data (v : String)
  | max_retries (v : Nat)
  | timeout_seconds (v : Int)
  | priority (v : Int)
  | is_active (v : Bool)
  | other (key : String)
deriving DecidableEq, Repr

/-- setattr for one update entry: whitelisted keys assign the field, any other
key is skipped by the `field in allowed_fields` test. -/
def applyUpd (j : Job) : Upd → Job
  | .name v => { j with name := v }
  | .description v => { j with description := v }
  | .cron_expression v => { j with cron_expression := v }
  | .interval_seconds v => { j with interval_seconds := v }
  | .job_data v => { j with job_data := v }
  | .max_retries v => { j with max_retries := v }
  | .timeout_seconds v => { j with timeout_seconds := v }
  | .priority v => { j with priority := v }
  | .is_active v => { j with is_active := v }
  | .other _ => j

/-- The `any(field in updates for field in ['cron_expression', 'interval_seconds'])`
test: key presence of either recurrence field in the update dictionary. -/
def isSchedUpd : Upd → Bool
  | .cron_expression _ => true
  | .interval_seconds _ => true
  | _ => false

/-- jobs.py JobService.update_job, lines 146-191: apply whitelisted entries,
then — only when a recurrence key was present in the dictionary — recompute
next_run_time from `now` and reschedule the trigger; finally stamp updated_at
and commit. -/
def update_job (cronNext : String → Int → Option Int)
    (cronTrigValid : String → Bool) (now : Int) (st : ServiceState) (jobId : Nat)
    (updates : List Upd) : ServiceState × Except String Job :=
  match lookupJob st jobId with
  | none => (st, .error "Job not found")
  | some job =>
    let j1 := updates.foldl applyUpd job
    if updates.any isSchedUpd then
      let j2 : Job := { j1 with
        next_run_time :=
          calculate_next_run_time cronNext now j1.cron_expression j1.interval_seconds }
      let j3 : Job := { j2 with updated_at := now }
      ({ store := updateStore st.store j3,
         triggers := schedule_job cronTrigValid j3 st.triggers }, .ok j3)
    else
      let j2 : Job := { j1 with updated_at := now }
      ({ store := updateStore st.store j2, triggers := st.triggers }, .ok j2)

/-- scheduler.py SchedulerService._execute_job, lines 125-153: re-read the job
from the store; if absent or not is_active, log and return without invoking the
executor (the returned Bool records whether the executor was invoked); else run
JobExecutor.execute and commit the mutated job.  Nothing on the skip path
touches the trigger set. -/
def scheduler_execute_job (cronNext : String → Int → Option Int) (t0 t1 : Int)
    (outcome : ExecOutcome) (st : ServiceState) (jobId : Nat) :
    ServiceState × Bool :=
  match lookupJob st jobId with
  | none => (st, false)
  | some job =>
    if job.is_active then
      let j := (execute cronNext t0 t1 job outcome).1
      ({ st with store := updateStore st.store j }, true)
    else
      (st, false)

end SchedulerPy

namespace SchedulerPy

/-- C3: for every retryCount ≥ 0 the retry-time calculation returns
now + min(2^retryCount, 60) minutes, and the delay is monotonically
non-decreasing in retryCount. -/
theorem calculate_retry_time_spec (now : Int) (m n : Nat) (h : m ≤ n) :
    calculate_retry_time now n = now + 60 * (min (2 ^ n) 60 : Int) ∧
    calculate_retry_time now m ≤ calculate_retry_time now n := by
  constructor
  · simp [calculate_retry_time, retry_delay_minutes]
  · have h2 : 2 ^ m ≤ 2 ^ n := Nat.pow_le_pow_right (by omega) h
    have hmin : min (2 ^ m) 60 ≤ min (2 ^ n) 60 := by omega
    simp only [calculate_retry_time, retry_delay_minutes]
    have : (min (2 ^ m) 60 : Int) ≤ (min (2 ^ n) 60 : Int) := by exact_mod_cast hmin
    omega

/-- Witness for C3 at retryCount 3 ≤ 7: delay 8 minutes vs the 60-minute cap. -/
theorem calculate_retry_time_spec_witness :
    calculate_retry_time 0 7 = 0 + 60 * (min (2 ^ 7) 60 : Int) ∧
    calculate_retry_time 0 3 ≤ calculate_retry_time 0 7 :=
  calculate_retry_time_spec 0 3 7 (by decide)

/-- Constant croniter model returning no next occurrence; concrete runs below use
interval-only jobs, whose cron branch is never consulted. -/
def cronNone : String → Int → Option Int := fun _ _ => none

/-- Concrete job for the retry-exhaustion scenario: max_retries = 2, fresh
statistics, hourly interval schedule. -/
def retryJob : Job :=
  { id := 1, name := "retry-job", description := "", job_type := "custom",
    cron_expression := none, interval_seconds := some 3600,
    next_run_time := some 0, last_run_time := none, job_data := "",
    max_retries := 2, retry_count := 0, timeout_seconds := 3600,
    status := .pending, is_active := true, priority := 5,
    total_runs := 0, successful_runs := 0, failed_runs := 0,
    average_runtime := 0, created_by := "system", updated_at := 0 }

/-- First, second and third consecutive failing executions of `retryJob`,
each starting from the job state the previous one committed. -/
def failRun1 : Job × JobExecution := execute cronNone 0 1 retryJob (.failure "boom" 1)

def failRun2 : Job × JobExecution := execute cronNone 100 101 failRun1.1 (.failure "boom" 1)

def failRun3 : Job × JobExecution := execute cronNone 200 201 failRun2.1 (.failure "boom" 1)

/-- C1 (code bug): a job with max_retries = 2 that fails three consecutive times
does NOT end failed/dormant.  Because line 57 of executor.py resets retry_count
to 0 on every call (`getattr(job, 'current_retry', 0)` — no such attribute
exists), each failure takes the `retry_count < max_retries` branch: after three
failures the job has status pending, retry_count 1, next_run_time set to the
2-minute backoff from the last failure, and the exhaustion branch was never
taken.  The three JobExecution rows are all failed, as the claim states. -/
theorem execute_retry_reset_bug :
    failRun1.2.status = .failed ∧ failRun2.2.status = .failed ∧
    failRun3.2.status = .failed ∧
    failRun3.1.total_runs = 3 ∧ failRun3.1.failed_runs = 3 ∧
    failRun3.1.status = .pending ∧
    failRun3.1.retry_count = 1 ∧
    failRun3.1.next_run_time = some (201 + 120) ∧
    ¬ (failRun3.1.status = .failed ∧ failRun3.1.retry_count = 2 ∧
       failRun3.1.next_run_time = none) := by
  decide

/-- C2: success path of JobExecutor.execute.  The execution record is completed
with its duration; total_runs and successful_runs each grow by 1; retry_count
resets to 0; the running average becomes (old_avg*(n-1)+duration)/n with n the
new total_runs; status becomes completed; next_run_time is recomputed from the
recurrence spec anchored at the completion time t1 — for an interval job,
t1 + interval_seconds. -/
theorem execute_success_spec (cronNext : String → Int → Option Int) (t0 t1 : Int)
    (job : Job) (r : String) (d : Rat) :
    (execute cronNext t0 t1 job (.success r d)).2.status = .completed ∧
    (execute cronNext t0 t1 job (.success r d)).2.duration = some d ∧
    (execute cronNext t0 t1 job (.success r d)).1.total_runs = job.total_runs + 1 ∧
    (execute cronNext t0 t1 job (.success r d)).1.successful_runs = job.successful_runs + 1 ∧
    (execute cronNext t0 t1 job (.success r d)).1.retry_count = 0 ∧
    (execute cronNext t0 t1 job (.success r d)).1.status = .completed ∧
    (execute cronNext t0 t1 job (.success r d)).1.average_runtime =
      (job.average_runtime * (((job.total_runs + 1 : Nat) : Rat) - 1) + d) /
        ((job.total_runs + 1 : Nat) : Rat) ∧
    (execute cronNext t0 t1 job (.success r d)).1.next_run_time =
      calculate_next_run_time cronNext t1 job.cron_expression job.interval_seconds ∧
    (∀ i : Int, job.cron_expression = none → job.interval_seconds = some i → i ≠ 0 →
      (execute cronNext t0 t1 job (.success r d)).1.next_run_time = some (t1 + i)) := by
  refine ⟨rfl, rfl, rfl, rfl, rfl, rfl, rfl, rfl, ?_⟩
  intro i hc hi hne
  simp [execute, calculate_next_run_time, truthyStr, truthyInt, hc, hi, hne]

/-- Witness for C2 on a concrete interval job: the recomputed next_run_time is
the completion time plus the interval. -/
theorem execute_success_spec_witness :
    (execute cronNone 0 10 retryJob (.success "ok" 5)).1.next_run_time =
      some (10 + 3600) :=
  (execute_success_spec cronNone 0 10 retryJob "ok" 5).2.2.2.2.2.2.2.2 3600
    rfl rfl (by decide)

/-- C10: run-accounting invariant of every JobExecutor.execute call that
returns.  The single execution record it creates and returns has a terminal
status (completed or failed); total_runs grows by exactly 1; exactly one of
successful_runs / failed_runs grows by exactly 1; hence
total_runs = successful_runs + failed_runs is preserved. -/
theorem execute_run_accounting (cronNext : String → Int → Option Int) (t0 t1 : Int)
    (job : Job) (outcome : ExecOutcome)
    (h : job.total_runs = job.successful_runs + job.failed_runs) :
    ((execute cronNext t0 t1 job outcome).2.status = .completed ∨
     (execute cronNext t0 t1 job outcome).2.status = .failed) ∧
    (execute cronNext t0 t1 job outcome).1.total_runs = job.total_runs + 1 ∧
    (((execute cronNext t0 t1 job outcome).1.successful_runs = job.successful_runs + 1 ∧
      (execute cronNext t0 t1 job outcome).1.failed_runs = job.failed_runs) ∨
     ((execute cronNext t0 t1 job outcome).1.successful_runs = job.successful_runs ∧
      (execute cronNext t0 t1 job outcome).1.failed_runs = job.failed_runs + 1)) ∧
    (execute cronNext t0 t1 job outcome).1.total_runs =
      (execute cronNext t0 t1 job outcome).1.successful_runs +
        (execute cronNext t0 t1 job outcome).1.failed_runs := by
  cases outcome with
  | success r d =>
    refine ⟨Or.inl rfl, rfl, Or.inl ⟨rfl, rfl⟩, ?_⟩
    simp [execute]
    omega
  | failure msg d =>
    by_cases hretry : (0 : Nat) < job.max_retries
    · simp [execute, hretry]
      omega
    · simp [execute, hretry]
      omega

/-- Decides whether a JobService call returned a job (no
InvalidJobConfigurationError raised). -/
def isOkResult : Except String Job → Bool
  | .ok _ => true
  | .error _ => false

/-- A job configuration that the spec's validation rules reject on four counts
(name of length 2, priority 0, max_retries 11, timeout 10 s) but that
_validate_job_data accepts. -/
def cexConfig : JobConfig :=
  { name := some "ab", interval_seconds := some 60, priority := some 0,
    max_retries := some 11, timeout_seconds := some 10 }

/-- C4 counterexample: `cexConfig` violates the claim's bounds (name shorter
than 3 characters, priority outside 1-10, max_retries above 10, timeout below
30 s), yet create_job accepts it, persists the job and arms its trigger.
jobs.py _validate_job_data checks none of those bounds — the bound-checking
helpers in common/validators.py are never called on the create path. -/
theorem create_job_validation_counterexample :
    (cexConfig.name.getD "").length < 3 ∧
    cexConfig.priority = some 0 ∧
    cexConfig.max_retries = some 11 ∧
    cexConfig.timeout_seconds = some 10 ∧
    isOkResult
      (create_job (fun _ => false) (fun _ => false) cronNone 0 true 7
        ⟨[], []⟩ cexConfig).2 = true ∧
    (create_job (fun _ => false) (fun _ => false) cronNone 0 true 7
        ⟨[], []⟩ cexConfig).1.store.length = 1 ∧
    7 ∈ (create_job (fun _ => false) (fun _ => false) cronNone 0 true 7
        ⟨[], []⟩ cexConfig).1.triggers := by
  decide

/-- Helper: _validate_job_data accepts a configuration exactly when the name
is truthy, at least one recurrence field is truthy, a truthy cron expression is
accepted by croniter, a truthy interval is positive, and a truthy job_type is a
known tag. -/
theorem validate_job_data_ok_iff (cronValid : String → Bool) (cfg : JobConfig) :
    validate_job_data cronValid cfg = .ok () ↔
      (truthyStr cfg.name = true ∧
       (truthyStr cfg.cron_expression = true ∨ truthyInt cfg.interval_seconds = true) ∧
       (truthyStr cfg.cron_expression = true →
         cronValid (cfg.cron_expression.getD "") = true) ∧
       (truthyInt cfg.interval_seconds = true → 0 < cfg.interval_seconds.getD 0) ∧
       (truthyStr cfg.job_type = true →
         validJobTypes.contains (cfg.job_type.getD "") = true)) := by
  by_cases h1 : truthyStr cfg.name = true <;>
  by_cases h2 : truthyStr cfg.cron_expression = true <;>
  by_cases h3 : truthyInt cfg.interval_seconds = true <;>
  by_cases h4 : truthyStr cfg.job_type = true <;>
  by_cases h5 : cronValid (cfg.cron_expression.getD "") = true <;>
  by_cases h6 : cfg.interval_seconds.getD 0 ≤ 0 <;>
  by_cases h7 : validJobTypes.contains (cfg.job_type.getD "") = true <;>
  simp_all [validate_job_data] <;>
  first
    | omega
    | (split_ifs <;> simp)

/-- Helper: a truthy job_type (a present, non-empty key) reads the same string
under `getD ""` (the validation check) and `getD "custom"` (the JobType
construction), so enum membership at construction implies it at validation. -/
theorem jobType_construction_implies_validation (cfg : JobConfig)
    (hjt : validJobTypes.contains (cfg.job_type.getD "custom") = true) :
    truthyStr cfg.job_type = true →
      validJobTypes.contains (cfg.job_type.getD "") = true := by
  intro ht
  cases hcfg : cfg.job_type with
  | none => simp [truthyStr, hcfg] at ht
  | some t => simpa [hcfg] using hjt

/-- C4 amended: create_job rejects with InvalidJobConfiguration exactly when
the persistence commit fails or one of the checks it actually performs fails —
name missing or empty, neither recurrence field truthy, a truthy cron
expression rejected by croniter, a truthy interval non-positive, or the
job_type value (defaulting to "custom" when the key is absent) outside the
JobType enum; the last case covers a present-but-empty job_type, which slips
past the truthiness-guarded validation check but fails the JobType
construction.  Name length, priority, max_retries and timeout bounds are never
checked, and both recurrence fields being set is accepted.  On every rejection
the state is unchanged: nothing persisted and no trigger armed. -/
theorem create_job_rejection_characterization (cronValid cronTrigValid : String → Bool)
    (cronNext : String → Int → Option Int) (now : Int) (persistOk : Bool)
    (newId : Nat) (st : ServiceState) (cfg : JobConfig) :
    (isOkResult
        (create_job cronValid cronTrigValid cronNext now persistOk newId st cfg).2 =
          true ↔
      (persistOk = true ∧
       truthyStr cfg.name = true ∧
       (truthyStr cfg.cron_expression = true ∨ truthyInt cfg.interval_seconds = true) ∧
       (truthyStr cfg.cron_expression = true →
         cronValid (cfg.cron_expression.getD "") = true) ∧
       (truthyInt cfg.interval_seconds = true → 0 < cfg.interval_seconds.getD 0) ∧
       validJobTypes.contains (cfg.job_type.getD "custom") = true)) ∧
    (isOkResult
        (create_job cronValid cronTrigValid cronNext now persistOk newId st cfg).2 =
          false →
      (create_job cronValid cronTrigValid cronNext now persistOk newId st cfg).1 = st) := by
  constructor
  · constructor
    · intro hok
      cases hv : validate_job_data cronValid cfg with
      | error e => simp [create_job, hv, isOkResult] at hok
      | ok u =>
        cases u
        have hcond := (validate_job_data_ok_iff cronValid cfg).mp hv
        by_cases hjt : validJobTypes.contains (cfg.job_type.getD "custom") = true
        · by_cases hp : persistOk = true
          · exact ⟨hp, hcond.1, hcond.2.1, hcond.2.2.1, hcond.2.2.2.1, hjt⟩
          · exfalso
            have hp0 : persistOk = false := by
              cases persistOk
              · rfl
              · exact absurd rfl hp
            subst hp0
            simp only [create_job, hv] at hok
            rw [if_neg (by simpa using hjt), if_pos (by simp)] at hok
            simp [isOkResult] at hok
        · exfalso
          have hjt0 : validJobTypes.contains (cfg.job_type.getD "custom") = false := by
            cases hcc : validJobTypes.contains (cfg.job_type.getD "custom")
            · rfl
            · exact absurd hcc hjt
          simp only [create_job, hv] at hok
          rw [if_pos (by simpa using hjt0)] at hok
          simp [isOkResult] at hok
    · rintro ⟨hp, h1, h2, h3, h4, hjt⟩
      have hv : validate_job_data cronValid cfg = .ok () :=
        (validate_job_data_ok_iff cronValid cfg).mpr
          ⟨h1, h2, h3, h4, jobType_construction_implies_validation cfg hjt⟩
      subst hp
      simp only [create_job, hv]
      rw [if_neg (by simpa using hjt), if_neg (by simp)]
      split <;> rfl
  · intro hfail
    cases hv : validate_job_data cronValid cfg with
    | error e => simp [create_job, hv]
    | ok u =>
      cases u
      by_cases hjt : validJobTypes.contains (cfg.job_type.getD "custom") = true
      · by_cases hp : persistOk = true
        · exfalso
          subst hp
          simp only [create_job, hv] at hfail
          rw [if_neg (by simpa using hjt), if_neg (by simp)] at hfail
          split at hfail <;> simp [isOkResult] at hfail
        · have hp0 : persistOk = false := by
            cases persistOk
            · rfl
            · exact absurd rfl hp
          subst hp0
          simp only [create_job, hv]
          rw [if_neg (by simpa using hjt), if_pos (by simp)]
      · have hjt0 : validJobTypes.contains (cfg.job_type.getD "custom") = false := by
          cases hcc : validJobTypes.contains (cfg.job_type.getD "custom")
          · rfl
          · exact absurd hcc hjt
        simp only [create_job, hv]
        rw [if_pos (by simpa using hjt0)]

/-- A configuration whose job_type key is present but empty: the truthiness
guard skips the validation check, but JobType("") raises ValueError in the
construction and create_job rejects it. -/
def emptyTypeConfig : JobConfig :=
  { name := some "abc", interval_seconds := some 60, job_type := some "" }

/-- Witness for C4 amended theorem: the present-but-empty job_type
configuration is rejected even with a succeeding persistence commit, and the
state stays untouched. -/
theorem create_job_rejection_characterization_witness :
    (create_job (fun _ => true) (fun _ => true) cronNone 0 true 7
        ⟨[], []⟩ emptyTypeConfig).1 = ⟨[], []⟩ :=
  (create_job_rejection_characterization (fun _ => true) (fun _ => true) cronNone 0
      true 7 ⟨[], []⟩ emptyTypeConfig).2 (by decide)

/-- C6: whenever validation fails or the persistence commit fails, create_job
surfaces an InvalidJobConfigurationError and the session rollback leaves the
store and the trigger set unchanged. -/
theorem create_job_rollback (cronValid cronTrigValid : String → Bool)
    (cronNext : String → Int → Option Int) (now : Int) (persistOk : Bool)
    (newId : Nat) (st : ServiceState) (cfg : JobConfig)
    (h : validate_job_data cronValid cfg ≠ .ok () ∨ persistOk = false) :
    (create_job cronValid cronTrigValid cronNext now persistOk newId st cfg).1 = st ∧
    isOkResult
      (create_job cronValid cronTrigValid cronNext now persistOk newId st cfg).2 =
        false := by
  cases hv : validate_job_data cronValid cfg with
  | error e => simp [create_job, hv, isOkResult]
  | ok u =>
    cases u
    rcases h with h | h
    · exact absurd hv h
    · subst h
      simp only [create_job, hv]
      split_ifs <;> simp_all [isOkResult]

/-- Witness for C6: a persistence failure on a well-formed configuration
leaves the empty state unchanged and returns an error. -/
theorem create_job_rollback_witness :
    (create_job (fun _ => true) (fun _ => true) cronNone 0 false 7
        ⟨[], []⟩ cexConfig).1 = ⟨[], []⟩ ∧
    isOkResult
      (create_job (fun _ => true) (fun _ => true) cronNone 0 false 7
        ⟨[], []⟩ cexConfig).2 = false :=
  create_job_rollback (fun _ => true) (fun _ => true) cronNone 0 false 7
    ⟨[], []⟩ cexConfig (Or.inr rfl)

/-- Witness for C10 at a concrete failing run of a fresh job. -/
theorem execute_run_accounting_witness :
    ((execute cronNone 0 1 retryJob (.failure "boom" 1)).2.status = .completed ∨
     (execute cronNone 0 1 retryJob (.failure "boom" 1)).2.status = .failed) ∧
    (execute cronNone 0 1 retryJob (.failure "boom" 1)).1.total_runs =
      retryJob.total_runs + 1 ∧
    (((execute cronNone 0 1 retryJob (.failure "boom" 1)).1.successful_runs =
        retryJob.successful_runs + 1 ∧
      (execute cronNone 0 1 retryJob (.failure "boom" 1)).1.failed_runs =
        retryJob.failed_runs) ∨
     ((execute cronNone 0 1 retryJob (.failure "boom" 1)).1.successful_runs =
        retryJob.successful_runs ∧
      (execute cronNone 0 1 retryJob (.failure "boom" 1)).1.failed_runs =
        retryJob.failed_runs + 1)) ∧
    (execute cronNone 0 1 retryJob (.failure "boom" 1)).1.total_runs =
      (execute cronNone 0 1 retryJob (.failure "boom" 1)).1.successful_runs +
        (execute cronNone 0 1 retryJob (.failure "boom" 1)).1.failed_runs :=
  execute_run_accounting cronNone 0 1 retryJob (.failure "boom" 1) (by decide)

/-- A deactivated (paused) job, persisted with a stale pre-pause due time. -/
def pausedJob : Job :=
  { retryJob with is_active := false, status := .paused, next_run_time := some 42 }

/-- A state in which `pausedJob` is persisted but its trigger (id 1) is still
armed — the stale-trigger situation the claim describes. -/
def staleState : ServiceState := { store := [pausedJob], triggers := [1] }

/-- C5 counterexample: when a stale trigger fires for the deactivated
`pausedJob`, the engine skips the dispatch (the executor is not invoked) but
does NOT tear the trigger down: _execute_job just returns, and trigger id 1 is
still armed afterwards.  The claim part "the trigger is torn down" is false. -/
theorem stale_trigger_not_torn_down :
    lookupJob staleState 1 = some pausedJob ∧
    pausedJob.is_active = false ∧
    (scheduler_execute_job cronNone 0 1 (.failure "x" 1) staleState 1).2 = false ∧
    1 ∈ (scheduler_execute_job cronNone 0 1 (.failure "x" 1) staleState 1).1.triggers := by
  decide

/-- C5 amended: whenever a trigger fires, the engine re-reads the persisted job
immediately before dispatch; if the job is absent or its is_active flag is
false, the Executor is not invoked and the whole state — trigger set included —
is left unchanged (the trigger is not torn down; it only disappears through the
pause/delete paths).  A stale trigger therefore never executes a paused job. -/
theorem stale_trigger_skips_execution (cronNext : String → Int → Option Int)
    (t0 t1 : Int) (outcome : ExecOutcome) (st : ServiceState) (jobId : Nat)
    (h : lookupJob st jobId = none ∨
         ∃ job, lookupJob st jobId = some job ∧ job.is_active = false) :
    scheduler_execute_job cronNext t0 t1 outcome st jobId = (st, false) := by
  rcases h with h | ⟨job, hj, hact⟩
  · simp [scheduler_execute_job, h]
  · simp [scheduler_execute_job, hj, hact]

/-- Witness for C5 amended theorem on the concrete stale state. -/
theorem stale_trigger_skips_execution_witness :
    scheduler_execute_job cronNone 0 1 (.failure "x" 1) staleState 1 =
      (staleState, false) :=
  stale_trigger_skips_execution cronNone 0 1 (.failure "x" 1) staleState 1
    (Or.inr ⟨pausedJob, by decide, rfl⟩)

/-- C7: resume_job on an existing job sets is_active to true and status to
pending, recomputes next_run_time from the resume moment `now` via the trigger
calculation — the computed value is `calculate_next_run_time cronNext now`,
which does not read the pre-pause due time job.next_run_time; for an interval
job it is now + interval_seconds, for a cron job the next cron occurrence after
now — and re-arms the trigger whenever one can be built for the job. -/
theorem resume_job_spec (cronNext : String → Int → Option Int)
    (cronTrigValid : String → Bool) (now : Int) (st : ServiceState)
    (jobId : Nat) (job : Job) (h : lookupJob st jobId = some job) :
    (resume_job cronNext cronTrigValid now st jobId).2 =
      .ok { job with
            is_active := true, status := .pending,
            next_run_time :=
              calculate_next_run_time cronNext now job.cron_expression
                job.interval_seconds } ∧
    (resume_job cronNext cronTrigValid now st jobId).1.triggers =
      schedule_job cronTrigValid
        { job with
          is_active := true, status := .pending,
          next_run_time :=
            calculate_next_run_time cronNext now job.cron_expression
              job.interval_seconds } st.triggers ∧
    (∀ i : Int, job.cron_expression = none → job.interval_seconds = some i →
      i ≠ 0 →
      calculate_next_run_time cronNext now job.cron_expression
        job.interval_seconds = some (now + i)) ∧
    (truthyStr job.cron_expression = true →
      calculate_next_run_time cronNext now job.cron_expression
        job.interval_seconds = cronNext (job.cron_expression.getD "") now) ∧
    (create_trigger cronTrigValid
        { job with
          is_active := true, status := .pending,
          next_run_time :=
            calculate_next_run_time cronNext now job.cron_expression
              job.interval_seconds } = true →
      jobId ∈ (resume_job cronNext cronTrigValid now st jobId).1.triggers) := by
  have hid : job.id = jobId := by
    have h0 := List.find?_some h
    simpa using h0
  refine ⟨?_, ?_, ?_, ?_, ?_⟩
  · simp [resume_job, h]
  · simp [resume_job, h]
  · intro i hc hi hne
    simp [calculate_next_run_time, truthyStr, truthyInt, hc, hi, hne]
  · intro hce
    simp [calculate_next_run_time, hce]
  · intro htrig
    rw [hid] at htrig
    simp [resume_job, h, schedule_job, hid, htrig]

/-- Witness for C7: resuming the paused interval job recomputes its due time
from the resume moment 500 (giving 500 + 3600), discarding the stale due time 42. -/
theorem resume_job_spec_witness :
    (resume_job cronNone (fun _ => true) 500 staleState 1).2 =
      .ok { pausedJob with
            is_active := true, status := .pending,
            next_run_time :=
              calculate_next_run_time cronNone 500 pausedJob.cron_expression
                pausedJob.interval_seconds } :=
  (resume_job_spec cronNone (fun _ => true) 500 staleState 1 pausedJob
    (by decide)).1

/-- C8: pause_job on an existing job flips is_active to false and status to
paused, removes the job trigger from the armed set, and leaves every other
field of the job — retry_count, the run statistics, the average runtime, the
recurrence spec, next_run_time and all the rest — unchanged, as the record
update in the first conjunct shows. -/
theorem pause_job_spec (st : ServiceState) (jobId : Nat) (job : Job)
    (h : lookupJob st jobId = some job) :
    (pause_job st jobId).2 =
      .ok { job with is_active := false, status := .paused } ∧
    (pause_job st jobId).1.triggers = st.triggers.erase jobId ∧
    (pause_job st jobId).1.store =
      updateStore st.store { job with is_active := false, status := .paused } ∧
    ({ job with is_active := false, status := .paused } : Job).retry_count =
      job.retry_count ∧
    ({ job with is_active := false, status := .paused } : Job).total_runs =
      job.total_runs ∧
    ({ job with is_active := false, status := .paused } : Job).successful_runs =
      job.successful_runs ∧
    ({ job with is_active := false, status := .paused } : Job).failed_runs =
      job.failed_runs ∧
    ({ job with is_active := false, status := .paused } : Job).average_runtime =
      job.average_runtime ∧
    ({ job with is_active := false, status := .paused } : Job).next_run_time =
      job.next_run_time := by
  refine ⟨?_, ?_, ?_, rfl, rfl, rfl, rfl, rfl, rfl⟩ <;>
    simp [pause_job, h, remove_job]

/-- Witness for C8: pausing the active interval job in a one-job state. -/
theorem pause_job_spec_witness :
    (pause_job { store := [retryJob], triggers := [1] } 1).2 =
      .ok { retryJob with is_active := false, status := .paused } :=
  (pause_job_spec { store := [retryJob], triggers := [1] } 1 retryJob
    (by decide)).1


/-- The tuple of Job fields that lie outside the update whitelist of
jobs.py update_job (updated_at is included: applyUpd never touches it; the
update_job wrapper stamps it separately). -/
def frameView (j : Job) :
    Nat × JobStatus × Nat × Nat × Nat × Nat × Rat × Option Int × Option Int ×
      String × Int :=
  (j.id, j.status, j.retry_count, j.total_runs, j.successful_runs, j.failed_runs,
   j.average_runtime, j.last_run_time, j.next_run_time, j.created_by, j.updated_at)

theorem frameView_applyUpd (j : Job) (u : Upd) :
    frameView (applyUpd j u) = frameView j := by
  cases u <;> rfl

theorem frameView_foldl (updates : List Upd) (j : Job) :
    frameView (updates.foldl applyUpd j) = frameView j := by
  induction updates generalizing j with
  | nil => rfl
  | cons u us ih => rw [List.foldl_cons, ih (applyUpd j u), frameView_applyUpd]

/-- C9: update_job frame condition.  Only whitelisted entries mutate their
fields: whatever the update dictionary contains, the returned job keeps the
original id, status, retry_count, run statistics, average runtime and
last_run_time (any non-whitelisted key is skipped by the allowed_fields test).
When the dictionary contains a cron_expression or interval_seconds key,
next_run_time is recomputed from the post-update recurrence spec and the
trigger rescheduled (re-armed whenever a trigger can be built); when it
contains neither, the trigger set is untouched and next_run_time keeps its
old value. -/
theorem update_job_spec (cronNext : String → Int → Option Int)
    (cronTrigValid : String → Bool) (now : Int) (st : ServiceState) (jobId : Nat)
    (job : Job) (updates : List Upd) (h : lookupJob st jobId = some job) :
    (∀ j', (update_job cronNext cronTrigValid now st jobId updates).2 = .ok j' →
      j'.id = job.id ∧ j'.status = job.status ∧
      j'.retry_count = job.retry_count ∧ j'.total_runs = job.total_runs ∧
      j'.successful_runs = job.successful_runs ∧
      j'.failed_runs = job.failed_runs ∧
      j'.average_runtime = job.average_runtime ∧
      j'.last_run_time = job.last_run_time) ∧
    (updates.any isSchedUpd = false →
      (update_job cronNext cronTrigValid now st jobId updates).1.triggers =
        st.triggers ∧
      ∀ j', (update_job cronNext cronTrigValid now st jobId updates).2 = .ok j' →
        j'.next_run_time = job.next_run_time) ∧
    (updates.any isSchedUpd = true →
      ∀ j', (update_job cronNext cronTrigValid now st jobId updates).2 = .ok j' →
        j'.next_run_time =
          calculate_next_run_time cronNext now
            (updates.foldl applyUpd job).cron_expression
            (updates.foldl applyUpd job).interval_seconds ∧
        (update_job cronNext cronTrigValid now st jobId updates).1.triggers =
          schedule_job cronTrigValid j' st.triggers ∧
        (create_trigger cronTrigValid j' = true →
          j'.id ∈
            (update_job cronNext cronTrigValid now st jobId updates).1.triggers)) := by
  have hframe := frameView_foldl updates job
  simp only [frameView, Prod.mk.injEq] at hframe
  obtain ⟨e1, e2, e3, e4, e5, e6, e7, e8, e9, e10, e11⟩ := hframe
  refine ⟨?_, ?_, ?_⟩
  · intro j' hj'
    by_cases hs : updates.any isSchedUpd = true
    · simp only [update_job, h, hs, if_true] at hj'
      injection hj' with hj2
      subst hj2
      refine ⟨?_, ?_, ?_, ?_, ?_, ?_, ?_, ?_⟩ <;>
        simp [e1, e2, e3, e4, e5, e6, e7, e8]
    · simp only [update_job, h, hs, if_false, Bool.false_eq_true] at hj'
      injection hj' with hj2
      subst hj2
      refine ⟨?_, ?_, ?_, ?_, ?_, ?_, ?_, ?_⟩ <;>
        simp [e1, e2, e3, e4, e5, e6, e7, e8]
  · intro hs0
    have hs : ¬ updates.any isSchedUpd = true := by simp [hs0]
    constructor
    · simp [update_job, h, hs]
    · intro j' hj'
      simp only [update_job, h, hs, if_false, Bool.false_eq_true] at hj'
      injection hj' with hj2
      subst hj2
      simp [e9]
  · intro hs j' hj'
    simp only [update_job, h, hs, if_true] at hj'
    injection hj' with hj2
    subst hj2
    refine ⟨by simp, by simp [update_job, h, hs], ?_⟩
    intro htrig
    simp [update_job, h, hs, schedule_job, htrig]

/-- Witness for C9: an update touching only priority plus an unknown key
("status") leaves the trigger set of a one-job state untouched. -/
theorem update_job_spec_witness :
    (update_job cronNone (fun _ => true) 999
        { store := [retryJob], triggers := [1] } 1
        [Upd.priority 9, Upd.other "status"]).1.triggers =
      ({ store := [retryJob], triggers := [1] } : ServiceState).triggers :=
  ((update_job_spec cronNone (fun _ => true) 999
      { store := [retryJob], triggers := [1] } 1 retryJob
      [Upd.priority 9, Upd.other "status"] (by decide)).2.1 (by decide)).1

end SchedulerPy